import Mathlib

/-!
Shallow embedding of src/main.py (shopify-tally-middleware): a FastAPI
service with an inbound webhook (shopify_order), a voucher query endpoint
(tally_orders_post), an outbound push endpoint (tally_sales) and a root
HTML page (root).  JSON documents are embedded as structures of optional
fields, Python floats as rationals, Python exceptions as an explicit
error type, and the Supabase tables as in-memory lists.
-/

attribute [local semireducible] Rat.mul Rat.add Rat.sub Rat.inv Rat.ofScientific

/-- Errors a Python handler can raise while processing a request. -/
inductive PyError where
  | typeError (msg : String)
  | keyError (key : String)
  | zeroDivisionError
  | nameError (name : String)
  | httpException (status : Nat) (detail : String)
  deriving DecidableEq

/-- Python truthiness of an optional string: None and the empty string are falsy. -/
def pyTruthy : Option String → Bool
  | none => false
  | some s => !s.isEmpty

/-- Python a or b on optional strings: the first truthy operand, else b. -/
def pyOrOpt (a b : Option String) : Option String :=
  if pyTruthy a then a else b

/-- Python a or b where the right operand is a string literal. -/
def pyOrStr (a : Option String) (b : String) : String :=
  match a with
  | some s => if s.isEmpty then b else s
  | none => b

/-- Python s.strip(): drop whitespace from both ends. -/
def pyStrip (s : String) : String :=
  let l := s.data.dropWhile Char.isWhitespace
  String.mk ((l.reverse.dropWhile Char.isWhitespace).reverse)

/-- Python round(x, 2): round to 2 decimal places, ties to even (models
CPython rounding on exact decimal values).  Working on num and den, the
fractional part of x = q*100 is rem/d, and the comparisons of 2*rem with
d compare that fraction with one half. -/
def round2 (q : ℚ) : ℚ :=
  let x := q * 100
  let d : ℤ := (x.den : ℤ)
  let f : ℤ := Int.fdiv x.num d
  let rem : ℤ := x.num - f * d
  let n : ℤ :=
    if 2 * rem < d then f
    else if d < 2 * rem then f + 1
    else if f % 2 = 0 then f else f + 1
  (n : ℚ) / 100

instance {ε α : Type} [DecidableEq ε] [DecidableEq α] : DecidableEq (Except ε α)
  | .error a, .error b =>
    if h : a = b then .isTrue (congrArg Except.error h)
    else .isFalse (fun hh => h (Except.error.inj hh))
  | .error _, .ok _ => .isFalse (fun hh => Except.noConfusion hh)
  | .ok _, .error _ => .isFalse (fun hh => Except.noConfusion hh)
  | .ok a, .ok b =>
    if h : a = b then .isTrue (congrArg Except.ok h)
    else .isFalse (fun hh => h (Except.ok.inj hh))

/-- Embeds a tax line object: both fields are read defensively on line
items (tax.get) and price is read by direct indexing on shipping lines. -/
structure TaxLine where
  title : Option String
  price : Option ℚ
  deriving DecidableEq

/-- Embeds one element of the line_items array of a Shopify order. -/
structure LineItem where
  title : Option String
  quantity : Option ℕ
  price : Option ℚ
  tax_lines : List TaxLine
  deriving DecidableEq

/-- Embeds one element of the shipping_lines array. -/
structure ShippingLine where
  price : Option ℚ
  tax_lines : List TaxLine
  deriving DecidableEq

/-- Embeds the customer sub-record of a Shopify order. -/
structure CustomerDoc where
  first_name : Option String
  last_name : Option String
  email : Option String
  phone : Option String
  deriving DecidableEq

/-- Embeds a billing or shipping address sub-record. -/
structure AddressDoc where
  name : Option String
  email : Option String
  phone : Option String
  deriving DecidableEq

/-- Embeds the inbound Shopify order JSON document.  Fields the handler
never reads (tags, financial_status) are kept because the document is
persisted verbatim as raw_order. -/
structure OrderDoc where
  id : Option ℕ
  order_number : Option ℕ
  created_at : Option String
  currency : Option String
  total_price : Option ℚ
  total_tax : Option ℚ
  email : Option String
  customer : Option CustomerDoc
  billing_address : Option AddressDoc
  shipping_address : Option AddressDoc
  line_items : List LineItem
  shipping_lines : List ShippingLine
  tags : Option String
  financial_status : Option String
  deriving DecidableEq

def emptyCustomer : CustomerDoc := ⟨none, none, none, none⟩

def emptyAddress : AddressDoc := ⟨none, none, none⟩

/-- Models order.get("customer") or \x7b\x7d. -/
def custOf (o : OrderDoc) : CustomerDoc := o.customer.getD emptyCustomer

/-- Models order.get("billing_address") or \x7b\x7d. -/
def billingOf (o : OrderDoc) : AddressDoc := o.billing_address.getD emptyAddress

/-- Models order.get("shipping_address") or \x7b\x7d. -/
def shippingOf (o : OrderDoc) : AddressDoc := o.shipping_address.getD emptyAddress

/-- Customer-name resolution of shopify_order (main.py lines 44-55). -/
def resolveName (o : OrderDoc) : String :=
  let customer := custOf o
  if pyTruthy customer.first_name || pyTruthy customer.last_name then
    pyStrip ((customer.first_name.getD "") ++ " " ++ (customer.last_name.getD ""))
  else
    pyOrStr (billingOf o).name
      (pyOrStr (shippingOf o).name
        (pyOrStr customer.email "Unknown Customer"))

/-- Customer-email resolution of shopify_order (main.py lines 57-61). -/
def resolveEmail (o : OrderDoc) : Option String :=
  pyOrOpt (custOf o).email (pyOrOpt o.email (billingOf o).email)

/-- Customer-phone resolution of shopify_order (main.py lines 63-67). -/
def resolvePhone (o : OrderDoc) : Option String :=
  pyOrOpt (custOf o).phone (pyOrOpt (billingOf o).phone (shippingOf o).phone)

/-- Row of the orders table.  id is the Supabase-assigned primary key;
the handler supplies every other column. -/
structure OrderRow where
  id : ℕ
  shopify_order_id : Option ℕ
  order_number : String
  voucher_date : String
  customer_name : String
  customer_email : Option String
  customer_phone : Option String
  total_amount : ℚ
  total_amount_ex_gst : ℚ
  shipping_charge : ℚ
  shipping_gst : ℚ
  currency : String
  source : String
  raw_order : OrderDoc
  deriving DecidableEq

/-- Row of the order_items table. -/
structure ItemRow where
  order_id : ℕ
  item_name : Option String
  quantity : ℕ
  rate : ℚ
  amount : ℚ
  amount_ex_gst : ℚ
  cgst : ℚ
  sgst : ℚ
  igst : ℚ
  shipping_charge : ℚ
  shipping_gst : ℚ
  deriving DecidableEq

/-- In-memory model of the two Supabase tables; nextId is the primary-key
sequence of the orders table. -/
structure DB where
  orders : List OrderRow
  order_items : List ItemRow
  nextId : ℕ
  deriving DecidableEq

/-- First tax line of a line item: tax_lines[0] if tax_lines else \x7b\x7d. -/
def firstTax (li : LineItem) : Option TaxLine :=
  li.tax_lines.head?

/-- gst_amount = float(tax.get("price", 0)) for the first tax line. -/
def gstAmount (li : LineItem) : ℚ :=
  ((firstTax li).bind TaxLine.price).getD 0

/-- gst_type = tax.get("title") for the first tax line. -/
def gstTitle (li : LineItem) : Option String :=
  (firstTax li).bind TaxLine.title

/-- Values of the order_items insert dict (main.py lines 125-137) for one
line item.  The cgst/sgst/igst assignment mirrors the if/elif chain on
the first tax line title (lines 117-123). -/
def itemRowOf (shipping_charge shipping_gst : ℚ) (order_id : ℕ)
    (li : LineItem) : ItemRow :=
  let qty := li.quantity.getD 0
  let price_with_gst := li.price.getD 0
  let amount_with_gst := round2 (price_with_gst * (qty : ℚ))
  let gst_amount := gstAmount li
  let gst_type := gstTitle li
  let amount_ex_gst := round2 (amount_with_gst - gst_amount)
  let g : ℚ × ℚ × ℚ :=
    if gst_type = some "IGST" then (0, 0, gst_amount)
    else if gst_type = some "CGST" then (gst_amount, 0, 0)
    else if gst_type = some "SGST" then (0, gst_amount, 0)
    else (0, 0, 0)
  { order_id := order_id
    item_name := li.title
    quantity := qty
    rate := round2 (amount_ex_gst / (qty : ℚ))
    amount := amount_with_gst
    amount_ex_gst := amount_ex_gst
    cgst := g.1
    sgst := g.2.1
    igst := g.2.2
    shipping_charge := shipping_charge
    shipping_gst := shipping_gst }

/-- Per-line-item computation of shopify_order (main.py lines 103-137):
the rate division round(amount_ex_gst / qty, 2) raises ZeroDivisionError
when the quantity defaults to 0, otherwise the row is inserted. -/
def computeItem (shipping_charge shipping_gst : ℚ) (order_id : ℕ)
    (li : LineItem) : Except PyError ItemRow :=
  if li.quantity.getD 0 = 0 then
    .error .zeroDivisionError
  else
    .ok (itemRowOf shipping_charge shipping_gst order_id li)

/-- Sequenced per-item computation: the list of rows the handler inserts
when every line item succeeds. -/
def computeItems (shipping_charge shipping_gst : ℚ) (order_id : ℕ) :
    List LineItem → Except PyError (List ItemRow)
  | [] => .ok []
  | li :: rest =>
    match computeItem shipping_charge shipping_gst order_id li with
    | .error e => .error e
    | .ok row =>
      match computeItems shipping_charge shipping_gst order_id rest with
      | .error e => .error e
      | .ok rows => .ok (row :: rows)

/-- Values shopify_order computes before touching the database and whose
computation can raise. -/
structure Pre where
  shipping_charge : ℚ
  shipping_gst : ℚ
  voucher_date : String
  deriving DecidableEq

/-- shipping_charge (main.py line 74): float(shipping_lines[0]["price"])
if shipping_lines else 0; the direct key access raises KeyError when the
first shipping line has no price. -/
def shippingChargeE (o : OrderDoc) : Except PyError ℚ :=
  match o.shipping_lines.head? with
  | none => .ok 0
  | some sl =>
    match sl.price with
    | some p => .ok p
    | none => .error (.keyError "price")

/-- shipping_tax (main.py lines 76-78): the first tax line price of the
first shipping line when both exist, else 0. -/
def shippingTaxE (o : OrderDoc) : Except PyError ℚ :=
  match o.shipping_lines.head? with
  | none => .ok 0
  | some sl =>
    match sl.tax_lines.head? with
    | none => .ok 0
    | some t =>
      match t.price with
      | some p => .ok p
      | none => .error (.keyError "price")

/-- voucher_date (main.py line 84): order.get("created_at")[:10] raises
TypeError when created_at is absent, since None is not subscriptable. -/
def voucherDateE (o : OrderDoc) : Except PyError String :=
  match o.created_at with
  | none => .error (.typeError "NoneType is not subscriptable")
  | some s => .ok (s.take 10)

/-- Pre-database phase of shopify_order, in source evaluation order. -/
def preprocessE (o : OrderDoc) : Except PyError Pre := do
  let sc ← shippingChargeE o
  let st ← shippingTaxE o
  let vd ← voucherDateE o
  .ok ⟨sc, st, vd⟩

/-- Models str(order.get("order_number")). -/
def pyStrNat : Option ℕ → String
  | some n => toString n
  | none => "None"

/-- Column values of the orders-table upsert dict (main.py lines 80-97),
as a function of the database-assigned primary key. -/
def mkOrderRow (o : OrderDoc) (p : Pre) (oid : ℕ) : OrderRow :=
  let total_with_gst := o.total_price.getD 0
  let total_gst := o.total_tax.getD 0
  { id := oid
    shopify_order_id := o.id
    order_number := pyStrNat o.order_number
    voucher_date := p.voucher_date
    customer_name := resolveName o
    customer_email := resolveEmail o
    customer_phone := resolvePhone o
    total_amount := total_with_gst
    total_amount_ex_gst := round2 (total_with_gst - total_gst)
    shipping_charge := p.shipping_charge
    shipping_gst := p.shipping_gst
    currency := o.currency.getD "INR"
    source := "Shopify"
    raw_order := o }

/-- Supabase upsert with on_conflict = shopify_order_id: the conflicting
row keeps its primary key and is overwritten, otherwise a fresh row is
appended under the next key.  Returns the affected row id (res.data[0]
["id"]).  The unique-key column value is sid; mk builds the row from an
assigned primary key. -/
def upsertOrder (db : DB) (mk : ℕ → OrderRow) (sid : Option ℕ) : DB × ℕ :=
  match db.orders.find? (fun r => decide (r.shopify_order_id = sid)) with
  | some ex =>
    ({ db with orders :=
        db.orders.map (fun r =>
          if r.shopify_order_id = sid then mk ex.id else r) },
      ex.id)
  | none =>
    ({ db with orders := db.orders ++ [mk db.nextId], nextId := db.nextId + 1 },
      db.nextId)

/-- Models the order_items delete keyed by order_id (main.py line 101). -/
def deleteItems (db : DB) (oid : ℕ) : DB :=
  { db with order_items :=
      db.order_items.filter (fun i => !(decide (i.order_id = oid))) }

/-- Item insertion loop of shopify_order (main.py lines 103-137): inserts
row by row and stops at the first raised exception, leaving the rows
already inserted in place. -/
def insertItems (shipping_charge shipping_gst : ℚ) (oid : ℕ) :
    DB → List LineItem → DB × Option PyError
  | db, [] => (db, none)
  | db, li :: rest =>
    match computeItem shipping_charge shipping_gst oid li with
    | .error e => (db, some e)
    | .ok row =>
      insertItems shipping_charge shipping_gst oid
        { db with order_items := db.order_items ++ [row] } rest

/-- Inbound webhook handler POST /shopify/order (main.py lines 36-139):
resolve customer fields, upsert the order row keyed by shopify_order_id,
delete its items and reinsert them from the payload.  Returns the mutated
store and either the acknowledgement body or the raised exception. -/
def shopify_order (db : DB) (o : OrderDoc) : DB × Except PyError String :=
  match preprocessE o with
  | .error e => (db, .error e)
  | .ok p =>
    let up := upsertOrder db (mkOrderRow o p) o.id
    let db2 := deleteItems up.1 up.2
    match insertItems p.shipping_charge p.shipping_gst up.2 db2 o.line_items with
    | (db3, none) => (db3, .ok "stored")
    | (db3, some e) => (db3, .error e)

/-- Per-item gst sub-dict of the /tally/orders projection. -/
structure GstOut where
  cgst : ℚ
  sgst : ℚ
  igst : ℚ
  deriving DecidableEq

/-- Per-item dict of the /tally/orders projection (main.py lines 181-192). -/
structure ItemOut where
  item_name : Option String
  quantity : ℕ
  rate : ℚ
  amount : ℚ
  amount_with_gst : ℚ
  gst : GstOut
  deriving DecidableEq

/-- Voucher-shaped order dict of the /tally/orders response (main.py
lines 200-224). -/
structure Voucher where
  voucher_type : String
  voucher_number : String
  voucher_date : String
  customer_name : String
  customer_email : Option String
  customer_phone : Option String
  items : List ItemOut
  total_gst : ℚ
  shipping_charge : ℚ
  shipping_gst : ℚ
  total_amount : ℚ
  total_amount_with_gst : ℚ
  grand_total : ℚ
  currency : String
  source : String
  shopify_order_id : Option ℕ
  deriving DecidableEq

/-- Items the joined select attaches to one order row. -/
def itemsOfOrder (allItems : List ItemRow) (oid : ℕ) : List ItemRow :=
  allItems.filter (fun i => decide (i.order_id = oid))

/-- Projection of one stored item (main.py lines 181-192): amount is the
ex-GST amount, amount_with_gst the stored amount. -/
def projectItem (i : ItemRow) : ItemOut :=
  { item_name := i.item_name
    quantity := i.quantity
    rate := i.rate
    amount := i.amount_ex_gst
    amount_with_gst := i.amount
    gst := { cgst := i.cgst, sgst := i.sgst, igst := i.igst } }

/-- Projection of one stored order into voucher shape with recomputed
aggregates (main.py lines 164-224).  voucher_type is the literal "Sales". -/
def projectVoucher (allItems : List ItemRow) (o : OrderRow) : Voucher :=
  let its := itemsOfOrder allItems o.id
  let total_ex_gst := (its.map ItemRow.amount_ex_gst).sum
  let total_gst := (its.map (fun i => i.cgst + i.sgst + i.igst)).sum
  let total_with_gst := (its.map ItemRow.amount).sum
  let shipping := o.shipping_charge
  let shipping_gst := o.shipping_gst
  { voucher_type := "Sales"
    voucher_number := o.order_number
    voucher_date := o.voucher_date
    customer_name := o.customer_name
    customer_email := o.customer_email
    customer_phone := o.customer_phone
    items := its.map projectItem
    total_gst := round2 (total_gst + shipping_gst)
    shipping_charge := round2 shipping
    shipping_gst := round2 shipping_gst
    total_amount := round2 total_ex_gst
    total_amount_with_gst := round2 total_with_gst
    grand_total := round2 (total_with_gst + shipping)
    currency := o.currency
    source := o.source
    shopify_order_id := o.shopify_order_id }

/-- Lexicographic order on character lists by code point, modelling the
text comparison the datastore applies to voucher_date values. -/
def lexLeB : List Char → List Char → Bool
  | [], _ => true
  | _ :: _, [] => false
  | a :: as, b :: bs =>
    if a.toNat < b.toNat then true
    else if b.toNat < a.toNat then false
    else lexLeB as bs

/-- Text comparison on strings (voucher_date is an ISO date string, so
this coincides with chronological order). -/
def strLe (a b : String) : Prop :=
  lexLeB a.data b.data = true

instance : DecidableRel strLe :=
  fun a b => inferInstanceAs (Decidable (lexLeB a.data b.data = true))

/-- Date order on stored order rows used by order("voucher_date"). -/
def dateLe (a b : OrderRow) : Prop :=
  strLe a.voucher_date b.voucher_date

instance : DecidableRel dateLe :=
  fun a b => inferInstanceAs (Decidable (strLe a.voucher_date b.voucher_date))

/-- Rows selected by the range query of /tally/orders: voucher_date
between from_date and to_date inclusive, ascending by voucher_date. -/
def selectRange (db : DB) (f t : String) : List OrderRow :=
  (db.orders.filter
    (fun r => decide (strLe f r.voucher_date ∧ strLe r.voucher_date t))).insertionSort
    dateLe

/-- Query endpoint POST /tally/orders (main.py lines 145-226): requires
truthy from_date and to_date, selects the inclusive date range sorted
ascending by voucher_date and projects each row to voucher shape. -/
def tally_orders_post (db : DB) (from_date to_date : Option String) :
    Except PyError (List Voucher) :=
  if pyTruthy from_date && pyTruthy to_date then
    .ok ((selectRange db (from_date.getD "") (to_date.getD "")).map
      (projectVoucher db.order_items))
  else
    .error (.httpException 400 "from_date and to_date required")

/-- Item of the /tally/sales request body. -/
structure SalesItem where
  product_name : Option String
  item_name : Option String
  quantity : ℕ
  rate : ℚ
  deriving DecidableEq

/-- Customer block of the /tally/sales request body. -/
structure SalesCustomer where
  name : Option String
  email : Option String
  deriving DecidableEq

/-- Request body of /tally/sales. -/
structure SalesDoc where
  customer : Option SalesCustomer
  items : List SalesItem
  deriving DecidableEq

/-- Line item of the Shopify order-creation payload. -/
structure ShopifyLineItem where
  title : Option String
  quantity : ℕ
  price : ℚ
  deriving DecidableEq

/-- Order-creation payload sent to the Shopify write API (main.py lines
261-273). -/
structure ShopifyOrderPayload where
  email : Option String
  first_name : String
  last_name : String
  line_items : List ShopifyLineItem
  financial_status : String
  currency : String
  deriving DecidableEq

/-- Response of the storefront order-creation call: status, body text and
the order id carried in the body JSON. -/
structure HttpResponse where
  status_code : ℕ
  text : String
  order_id : ℕ
  deriving DecidableEq

/-- Python s.split(" ", 1): the part before the first space and, when a
space occurs, the remainder after it. -/
def splitFirstSpace (s : String) : String × Option String :=
  let cs := s.data
  let first := String.mk (cs.takeWhile (fun c => !(c = ' ')))
  if cs.any (fun c => c = ' ') then
    (first, some (String.mk ((cs.dropWhile (fun c => !(c = ' '))).drop 1)))
  else
    (first, none)

/-- Line-item mapping of /tally/sales (main.py lines 251-259). -/
def mkSalesLineItems (items : List SalesItem) : List ShopifyLineItem :=
  items.map (fun it =>
    { title := pyOrOpt it.product_name it.item_name
      quantity := it.quantity
      price := round2 it.rate })

/-- Order dict of the payload (main.py lines 261-273) for a request whose
customer block is c. -/
def mkSalesPayload (d : SalesDoc) (c : SalesCustomer) : ShopifyOrderPayload :=
  let full_name := pyStrip ((d.customer.getD ⟨none, none⟩).name.getD "")
  let sp := splitFirstSpace full_name
  { email := c.email
    first_name := sp.1
    last_name := sp.2.getD ""
    line_items := mkSalesLineItems d.items
    financial_status := "paid"
    currency := "INR" }

/-- Outbound push handler POST /tally/sales (main.py lines 230-283):
split the customer name on the first space, build the order-creation
payload, and surface any response status other than 200 or 201 as an
HTTP 500 carrying the response body verbatim; on success return the
payload sent together with the response dict values ("success" and the
storefront-assigned order id). -/
def tally_sales (d : SalesDoc) (resp : HttpResponse) :
    Except PyError (ShopifyOrderPayload × String × ℕ) :=
  match d.customer with
  | none => .error (.keyError "customer")
  | some c =>
    if resp.status_code = 200 ∨ resp.status_code = 201 then
      .ok (mkSalesPayload d c, "success", resp.order_id)
    else
      .error (.httpException 500 resp.text)

/-- Names bound at module level in main.py: imports, configuration
values, the Supabase client, the app and the route handlers.  GST_PERCENT
is not among them. -/
def moduleGlobals : List String :=
  ["urllib", "HTMLResponse", "RedirectResponse", "os", "requests",
   "FastAPI", "Request", "HTTPException", "create_client", "app",
   "SHOPIFY_TOKEN", "SHOPIFY_STORE", "SHOPIFY_API_VERSION",
   "SUPABASE_URL", "SUPABASE_KEY", "supabase",
   "shopify_order", "tally_orders_post", "tally_sales",
   "SHOPIFY_API_KEY", "SHOPIFY_API_SECRET", "SCOPES", "REDIRECT_URI",
   "shopify_install", "shopify_callback", "root"]

/-- Python global-name resolution inside a handler body: referencing a
name bound at module level yields a value (abbreviated here to the name
itself, since only resolution matters), an unbound name raises NameError. -/
def evalGlobal (n : String) : Except PyError String :=
  if moduleGlobals.contains n then .ok n else .error (.nameError n)

/-- Root page handler GET / (main.py lines 348-899): reads the shop query
parameter with default "aina-india" and builds the HTML template, whose
concatenation evaluates str(GST_PERCENT/2) twice, shop,
SHOPIFY_API_VERSION and str(GST_PERCENT) in that order; the body text
between the referenced expressions is abbreviated. -/
def root (shopParam : Option String) : Except PyError String := do
  let shop := shopParam.getD "aina-india"
  let g1 ← evalGlobal "GST_PERCENT"
  let g2 ← evalGlobal "GST_PERCENT"
  let v ← evalGlobal "SHOPIFY_API_VERSION"
  let g3 ← evalGlobal "GST_PERCENT"
  .ok (String.intercalate " " ["<html>", g1, g2, shop, v, g3, "</html>"])

/-!
Concrete documents used to exercise the handlers: the inbound example of
the specification (section 8), variants of it, and small outbound bodies.
-/

/-- Line item of the end-to-end example: title Shirt, quantity 2, price
"25.00". -/
def liShirt : LineItem :=
  { title := some "Shirt", quantity := some 2, price := some 25,
    tax_lines := [] }

/-- Line item whose first tax line is titled IGST with price 18. -/
def liIgst : LineItem :=
  { title := some "X", quantity := some 1, price := some 118,
    tax_lines := [{ title := some "IGST", price := some 18 }] }

/-- Line item with the quantity field absent (defaults to 0). -/
def liNoQty : LineItem :=
  { title := some "Y", quantity := none, price := some 10, tax_lines := [] }

/-- Line item with the price field absent (defaults to 0). -/
def liNoPrice : LineItem :=
  { title := some "Z", quantity := some 1, price := none, tax_lines := [] }

/-- Empty store. -/
def db0 : DB := { orders := [], order_items := [], nextId := 1 }

/-- Inbound order of the end-to-end example of the specification: id
1001, total_price "100.00", currency USD, one Shirt line item, customer
Asha Rao with email a@x.com.  The example carries no created_at field. -/
def exOrderNoDate : OrderDoc :=
  { id := some 1001, order_number := some 9, created_at := none,
    currency := some "USD", total_price := some 100, total_tax := none,
    email := none,
    customer := some { first_name := some "Asha", last_name := some "Rao",
                       email := some "a@x.com", phone := none },
    billing_address := none, shipping_address := none,
    line_items := [liShirt], shipping_lines := [],
    tags := none, financial_status := none }

/-- The example order completed with a creation timestamp so that the
handler can process it. -/
def exOrder1 : OrderDoc :=
  { exOrderNoDate with created_at := some "2024-05-01T10:00:00+05:30" }

/-- A second delivery for the same source order id 1001 with different
field values: another customer name, total and item list. -/
def exOrder1b : OrderDoc :=
  { exOrder1 with
    order_number := some 9, total_price := some 236,
    customer := some { first_name := some "Meera", last_name := none,
                       email := some "m@x.com", phone := none },
    line_items := [liIgst, liShirt],
    created_at := some "2024-05-02T09:00:00+05:30" }

/-- An order whose line item has no quantity. -/
def exOrderNoQty : OrderDoc :=
  { exOrder1 with id := some 1002, line_items := [liNoQty] }

/-- An order whose line item has no price. -/
def exOrderNoPrice : OrderDoc :=
  { exOrder1 with id := some 1003, line_items := [liNoPrice] }

/-- An order whose only line item carries an IGST tax line. -/
def exOrderIgst : OrderDoc :=
  { exOrder1 with id := some 1004, line_items := [liIgst] }

/-- An order carrying the classification example fields of the
specification: tags "carrier:DTDC" and financial_status "pending". -/
def exOrderDTDC : OrderDoc :=
  { exOrder1 with
    tags := some "carrier:DTDC",
    financial_status := some "pending" }

/-- Store after delivering the DTDC example order. -/
def dbDTDC : DB := (shopify_order db0 exOrderDTDC).1

/-- Vouchers the query endpoint returns for the DTDC store over 2024. -/
def vsDTDC : List Voucher :=
  match tally_orders_post dbDTDC (some "2024-01-01") (some "2024-12-31") with
  | .ok vs => vs
  | .error _ => []

/-- Placeholder voucher used as a getD default. -/
def vDefault : Voucher :=
  { voucher_type := "", voucher_number := "", voucher_date := "",
    customer_name := "", customer_email := none, customer_phone := none,
    items := [], total_gst := 0, shipping_charge := 0, shipping_gst := 0,
    total_amount := 0, total_amount_with_gst := 0, grand_total := 0,
    currency := "", source := "", shopify_order_id := none }

/-- An order on a different voucher date, under its own source id. -/
def exOrderMarch : OrderDoc :=
  { exOrder1 with
    id := some 1002, order_number := some 10,
    created_at := some "2024-03-07T08:00:00+05:30" }

/-- Store holding two orders whose delivery order differs from their
date order. -/
def dbTwo : DB := (shopify_order (shopify_order db0 exOrder1).1 exOrderMarch).1

/-- Vouchers the query endpoint returns for that store over 2024. -/
def vsTwo : List Voucher :=
  match tally_orders_post dbTwo (some "2024-01-01") (some "2024-12-31") with
  | .ok vs => vs
  | .error _ => []

/-- Order document with every optional field absent. -/
def exOrderBare : OrderDoc :=
  { id := none, order_number := none, created_at := none, currency := none,
    total_price := none, total_tax := none, email := none, customer := none,
    billing_address := none, shipping_address := none, line_items := [],
    shipping_lines := [], tags := none, financial_status := none }

/-- Customer block of an outbound push body. -/
def cust1 : SalesCustomer := { name := some "Asha Rao", email := some "a@x.com" }

/-- Outbound push body with one item. -/
def salesDoc1 : SalesDoc :=
  { customer := some cust1,
    items := [{ product_name := some "Shirt", item_name := none,
                quantity := 2, rate := 100 }] }

/-- Storefront responses: created, accepted without body id semantics,
and a client error. -/
def resp201 : HttpResponse := { status_code := 201, text := "created", order_id := 7 }

def resp202 : HttpResponse := { status_code := 202, text := "accepted", order_id := 7 }

def resp404 : HttpResponse := { status_code := 404, text := "not found", order_id := 0 }

/-!
Helper lemmas and order instances used by the claim theorems.
-/

theorem lexLeB_total : ∀ as bs, lexLeB as bs = true ∨ lexLeB bs as = true := by
  intro as
  induction as with
  | nil => intro bs; left; rfl
  | cons a as ih =>
    intro bs
    cases bs with
    | nil => right; rfl
    | cons b bs =>
      simp only [lexLeB]
      rcases Nat.lt_trichotomy a.toNat b.toNat with h | h | h
      · left; simp [h]
      · have h1 : ¬ a.toNat < b.toNat := by omega
        have h2 : ¬ b.toNat < a.toNat := by omega
        simpa [h1, h2, h] using ih bs
      · right; simp [h, Nat.lt_asymm h]

theorem lexLeB_trans :
    ∀ as bs cs, lexLeB as bs = true → lexLeB bs cs = true →
      lexLeB as cs = true := by
  intro as
  induction as with
  | nil => intro bs cs _ _; rfl
  | cons a as ih =>
    intro bs cs hab hbc
    cases bs with
    | nil => simp [lexLeB] at hab
    | cons b bs =>
      cases cs with
      | nil => simp [lexLeB] at hbc
      | cons c cs =>
        simp only [lexLeB] at hab hbc ⊢
        rcases Nat.lt_trichotomy a.toNat b.toNat with h1 | h1 | h1 <;>
          rcases Nat.lt_trichotomy b.toNat c.toNat with h2 | h2 | h2 <;>
          simp_all [Nat.lt_asymm, Nat.lt_irrefl] <;> first
          | (have : a.toNat < c.toNat := by omega
             simp [this])
          | (exact ih bs cs hab hbc)
          | omega

instance : IsTotal OrderRow dateLe :=
  ⟨fun a b => lexLeB_total a.voucher_date.data b.voucher_date.data⟩

instance : IsTrans OrderRow dateLe :=
  ⟨fun a b c hab hbc =>
    lexLeB_trans a.voucher_date.data b.voucher_date.data c.voucher_date.data
      hab hbc⟩

theorem computeItem_ok_elim {sc sg : ℚ} {oid : ℕ} {li : LineItem}
    {row : ItemRow} (h : computeItem sc sg oid li = .ok row) :
    row = itemRowOf sc sg oid li := by
  unfold computeItem at h
  split at h
  · exact absurd h (by simp)
  · exact (Except.ok.inj h).symm

/-!
Claim theorems.
-/

/-- C10: every GET request to the root path raises instead of rendering
the page, because the response template references GST_PERCENT, a name
bound nowhere in the module. -/
theorem C10_root_raises_nameError (shopParam : Option String) :
    root shopParam = .error (.nameError "GST_PERCENT") := rfl

/-- C6: when no name-bearing source field is present the resolved
customer name is the literal "Unknown Customer" (never null), and the
resolved email and phone are null when every email/phone source is
absent. -/
theorem C6_absent_sources_defaults (o : OrderDoc)
    (hfn : (custOf o).first_name = none) (hln : (custOf o).last_name = none)
    (hbn : (billingOf o).name = none) (hsn : (shippingOf o).name = none)
    (hce : (custOf o).email = none) (hoe : o.email = none)
    (hbe : (billingOf o).email = none) (hcp : (custOf o).phone = none)
    (hbp : (billingOf o).phone = none) (hshp : (shippingOf o).phone = none) :
    resolveName o = "Unknown Customer" ∧ resolveEmail o = none ∧
      resolvePhone o = none := by
  refine ⟨?_, ?_, ?_⟩
  · simp [resolveName, hfn, hln, hbn, hsn, hce, pyTruthy, pyOrStr]
  · simp [resolveEmail, hce, hoe, hbe, pyTruthy, pyOrOpt]
  · simp [resolvePhone, hcp, hbp, hshp, pyTruthy, pyOrOpt]

theorem C6_witness :
    resolveName exOrderBare = "Unknown Customer" ∧
    resolveEmail exOrderBare = none ∧ resolvePhone exOrderBare = none :=
  C6_absent_sources_defaults exOrderBare rfl rfl rfl rfl rfl rfl rfl rfl rfl rfl

/-- C4 (code bug): the handler is meant to acknowledge any order
document, defaulting missing fields, and a missing price is indeed
defaulted to 0; but a missing created_at raises TypeError before the
upsert, and a missing (or zero) quantity raises ZeroDivisionError in the
rate computation. -/
theorem C4_missing_fields_raise :
    shopify_order db0 exOrderNoDate =
      (db0, .error (.typeError "NoneType is not subscriptable")) ∧
    (shopify_order db0 exOrderNoQty).2 = .error .zeroDivisionError ∧
    (shopify_order db0 exOrderNoPrice).2 = .ok "stored" := by decide

/-- C1 counterexample: the end-to-end example line item (price "25.00",
quantity 2), delivered with a creation timestamp added so the handler
can run at all, is stored with amount 50, not the claimed
round(25*83*2, 2) = 4150 — no exchange rate exists in this code. -/
theorem C1_example_amount_counterexample :
    ((shopify_order db0 exOrder1).1.order_items.map ItemRow.amount) = [50] ∧
    (50 : ℚ) ≠ 4150 := by decide

/-- C1 amended: no currency conversion is applied anywhere; every stored
line item amount equals round(price * quantity, 2) in the source
currency units. -/
theorem C1_amended_no_conversion (sc sg : ℚ) (oid : ℕ) (li : LineItem)
    (row : ItemRow) (h : computeItem sc sg oid li = .ok row) :
    row.amount = round2 ((li.price.getD 0) * (li.quantity.getD 0 : ℚ)) := by
  have hrow := computeItem_ok_elim h
  subst hrow
  rfl

theorem C1_amended_witness :
    (itemRowOf 0 0 1 liShirt).amount =
      round2 ((liShirt.price.getD 0) * (liShirt.quantity.getD 0 : ℚ)) :=
  C1_amended_no_conversion 0 0 1 liShirt (itemRowOf 0 0 1 liShirt) (by decide)

/-- C2 counterexample: an order whose line item carries an IGST tax line
is stored with igst = 18 and cgst = sgst = 0, contradicting the claimed
invariant igst = 0 for every stored item. -/
theorem C2_igst_counterexample :
    ((shopify_order db0 exOrderIgst).1.order_items.map
      (fun r => (r.cgst, r.sgst, r.igst))) = [((0 : ℚ), (0 : ℚ), (18 : ℚ))] ∧
    (18 : ℚ) ≠ 0 := by decide

/-- C2 amended: no flat tax percentage exists; for every stored line
item, cgst + sgst + igst equals the first source tax line price when
that line is titled CGST, SGST or IGST, and 0 otherwise. -/
theorem C2_amended_sum_eq_first_tax_line (sc sg : ℚ) (oid : ℕ)
    (li : LineItem) (row : ItemRow)
    (h : computeItem sc sg oid li = .ok row) :
    row.cgst + row.sgst + row.igst =
      if gstTitle li = some "CGST" ∨ gstTitle li = some "SGST" ∨
         gstTitle li = some "IGST"
      then gstAmount li else 0 := by
  have hrow := computeItem_ok_elim h
  subst hrow
  by_cases h1 : gstTitle li = some "IGST" <;>
    by_cases h2 : gstTitle li = some "CGST" <;>
      by_cases h3 : gstTitle li = some "SGST" <;>
        simp [itemRowOf, h1, h2, h3]

theorem C2_amended_witness :
    (itemRowOf 0 0 1 liIgst).cgst + (itemRowOf 0 0 1 liIgst).sgst +
        (itemRowOf 0 0 1 liIgst).igst =
      if gstTitle liIgst = some "CGST" ∨ gstTitle liIgst = some "SGST" ∨
         gstTitle liIgst = some "IGST"
      then gstAmount liIgst else 0 :=
  C2_amended_sum_eq_first_tax_line 0 0 1 liIgst (itemRowOf 0 0 1 liIgst)
    (by decide)

/-- C9: for every stored line item at most one of cgst, sgst, igst is
nonzero; the component named by the first tax line title receives that
tax line price, and all three are zero when the item has no tax lines or
an unrecognized title. -/
theorem C9_single_tax_component (sc sg : ℚ) (oid : ℕ) (li : LineItem)
    (row : ItemRow) (h : computeItem sc sg oid li = .ok row) :
    ((row.sgst = 0 ∧ row.igst = 0) ∨ (row.cgst = 0 ∧ row.igst = 0) ∨
      (row.cgst = 0 ∧ row.sgst = 0)) ∧
    (gstTitle li = some "CGST" → row.cgst = gstAmount li) ∧
    (gstTitle li = some "SGST" → row.sgst = gstAmount li) ∧
    (gstTitle li = some "IGST" → row.igst = gstAmount li) ∧
    (li.tax_lines = [] → row.cgst = 0 ∧ row.sgst = 0 ∧ row.igst = 0) ∧
    (gstTitle li ≠ some "CGST" → gstTitle li ≠ some "SGST" →
      gstTitle li ≠ some "IGST" →
      row.cgst = 0 ∧ row.sgst = 0 ∧ row.igst = 0) := by
  have hrow := computeItem_ok_elim h
  subst hrow
  refine ⟨?_, ?_, ?_, ?_, ?_, ?_⟩
  · by_cases h1 : gstTitle li = some "IGST"
    · right; right; simp [itemRowOf, h1]
    · by_cases h2 : gstTitle li = some "CGST"
      · left; simp [itemRowOf, h1, h2]
      · by_cases h3 : gstTitle li = some "SGST"
        · right; left; simp [itemRowOf, h1, h2, h3]
        · left; simp [itemRowOf, h1, h2, h3]
  · intro h2
    have h1 : gstTitle li ≠ some "IGST" := by simp [h2]
    simp [itemRowOf, h1, h2]
  · intro h3
    have h1 : gstTitle li ≠ some "IGST" := by simp [h3]
    have h2 : gstTitle li ≠ some "CGST" := by simp [h3]
    simp [itemRowOf, h1, h2, h3]
  · intro h1
    simp [itemRowOf, h1]
  · intro hnil
    have h1 : gstTitle li = none := by simp [gstTitle, firstTax, hnil]
    simp [itemRowOf, h1, gstAmount, firstTax, hnil]
  · intro h2 h3 h1
    simp [itemRowOf, h1, h2, h3]

theorem C9_witness :
    (((itemRowOf 0 0 1 liIgst).sgst = 0 ∧ (itemRowOf 0 0 1 liIgst).igst = 0) ∨
      ((itemRowOf 0 0 1 liIgst).cgst = 0 ∧ (itemRowOf 0 0 1 liIgst).igst = 0) ∨
      ((itemRowOf 0 0 1 liIgst).cgst = 0 ∧ (itemRowOf 0 0 1 liIgst).sgst = 0)) ∧
    (gstTitle liIgst = some "CGST" → (itemRowOf 0 0 1 liIgst).cgst = gstAmount liIgst) ∧
    (gstTitle liIgst = some "SGST" → (itemRowOf 0 0 1 liIgst).sgst = gstAmount liIgst) ∧
    (gstTitle liIgst = some "IGST" → (itemRowOf 0 0 1 liIgst).igst = gstAmount liIgst) ∧
    (liIgst.tax_lines = [] →
      (itemRowOf 0 0 1 liIgst).cgst = 0 ∧ (itemRowOf 0 0 1 liIgst).sgst = 0 ∧
        (itemRowOf 0 0 1 liIgst).igst = 0) ∧
    (gstTitle liIgst ≠ some "CGST" → gstTitle liIgst ≠ some "SGST" →
      gstTitle liIgst ≠ some "IGST" →
      (itemRowOf 0 0 1 liIgst).cgst = 0 ∧ (itemRowOf 0 0 1 liIgst).sgst = 0 ∧
        (itemRowOf 0 0 1 liIgst).igst = 0) :=
  C9_single_tax_component 0 0 1 liIgst (itemRowOf 0 0 1 liIgst) (by decide)

/-- C5 counterexample: an order with tags "carrier:DTDC" and
financial_status "pending" is projected with voucher_type "Sales", not
"Sales-COD-DTDC" — the endpoint performs no classification. -/
theorem C5_voucher_type_counterexample :
    exOrderDTDC.tags = some "carrier:DTDC" ∧
    exOrderDTDC.financial_status = some "pending" ∧
    tally_orders_post dbDTDC (some "2024-01-01") (some "2024-12-31") =
      .ok vsDTDC ∧
    vsDTDC.map Voucher.voucher_type = ["Sales"] ∧
    "Sales" ≠ "Sales-COD-DTDC" := by decide

/-- C5 amended: every voucher the query endpoint returns carries the
constant voucher type "Sales"; no payment or channel classification is
encoded. -/
theorem C5_amended_voucher_type_constant (db : DB) (f t : Option String)
    (vs : List Voucher) (h : tally_orders_post db f t = .ok vs) :
    ∀ v ∈ vs, v.voucher_type = "Sales" := by
  unfold tally_orders_post at h
  split at h
  · have hvs := Except.ok.inj h
    subst hvs
    intro v hv
    rcases List.mem_map.mp hv with ⟨r, _, hr⟩
    subst hr
    rfl
  · exact absurd h (by simp)

theorem C5_amended_witness : (vsDTDC.getD 0 vDefault).voucher_type = "Sales" :=
  C5_amended_voucher_type_constant dbDTDC (some "2024-01-01")
    (some "2024-12-31") vsDTDC (by decide) (vsDTDC.getD 0 vDefault) (by decide)

/-- C7 counterexample: a 202 response is a 2xx success, yet the endpoint
fails on it, because the code checks membership in \x7b200, 201\x7d rather
than the whole 2xx class. -/
theorem C7_status202_counterexample :
    (200 ≤ resp202.status_code ∧ resp202.status_code ≤ 299) ∧
    tally_sales salesDoc1 resp202 = .error (.httpException 500 "accepted") := by
  decide

/-- C7 amended: for a body carrying a customer block, the push endpoint
fails, propagating an HTTP 500 whose detail is the storefront response
body verbatim with no retry, exactly when the response status is neither
200 nor 201; on 200 or 201 it returns the storefront-assigned order id. -/
theorem C7_amended_status_check (d : SalesDoc) (c : SalesCustomer)
    (resp : HttpResponse) (hc : d.customer = some c) :
    ((resp.status_code = 200 ∨ resp.status_code = 201) →
      tally_sales d resp = .ok (mkSalesPayload d c, "success", resp.order_id)) ∧
    (¬(resp.status_code = 200 ∨ resp.status_code = 201) →
      tally_sales d resp = .error (.httpException 500 resp.text)) := by
  unfold tally_sales
  rw [hc]
  constructor
  · intro h
    simp [h]
  · intro h
    simp [h]

theorem C7_amended_witness :
    tally_sales salesDoc1 resp201 =
      .ok (mkSalesPayload salesDoc1 cust1, "success", resp201.order_id) ∧
    tally_sales salesDoc1 resp404 =
      .error (.httpException 500 resp404.text) :=
  ⟨(C7_amended_status_check salesDoc1 cust1 resp201 rfl).1 (by decide),
   (C7_amended_status_check salesDoc1 cust1 resp404 rfl).2 (by decide)⟩

/-- C8: for every date range the query endpoint returns exactly the
stored orders whose voucher date lies in the inclusive range, projected
to voucher shape, and the result is ascending by voucher date. -/
theorem C8_range_query_sorted (db : DB) (f t : String) (vs : List Voucher)
    (h : tally_orders_post db (some f) (some t) = .ok vs) :
    vs.Perm ((db.orders.filter
        (fun r => decide (strLe f r.voucher_date ∧ strLe r.voucher_date t))).map
      (projectVoucher db.order_items)) ∧
    (vs.map Voucher.voucher_date).Sorted strLe := by
  unfold tally_orders_post at h
  split at h
  · have hvs := Except.ok.inj h
    simp only [Option.getD_some] at hvs
    subst hvs
    constructor
    · exact (List.perm_insertionSort dateLe _).map (projectVoucher db.order_items)
    · have hs : (selectRange db f t).Sorted dateLe :=
        List.sorted_insertionSort dateLe _
      rw [List.map_map]
      exact List.Pairwise.map _ (fun a b hab => hab) hs
  · exact absurd h (by simp)

theorem C8_witness :
    vsTwo.Perm ((dbTwo.orders.filter
        (fun r => decide (strLe "2024-01-01" r.voucher_date ∧
          strLe r.voucher_date "2024-12-31"))).map
      (projectVoucher dbTwo.order_items)) ∧
    (vsTwo.map Voucher.voucher_date).Sorted strLe :=
  C8_range_query_sorted dbTwo "2024-01-01" "2024-12-31" vsTwo (by decide)

theorem upsertOrder_items (db : DB) (mk : ℕ → OrderRow) (sid : Option ℕ) :
    (upsertOrder db mk sid).1.order_items = db.order_items := by
  unfold upsertOrder
  rcases h : db.orders.find? (fun r => decide (r.shopify_order_id = sid)) with _ | ex <;>
    simp [h]

theorem filter_map_replace (l : List OrderRow) (new : OrderRow) (n : ℕ)
    (hnew : new.shopify_order_id = some n) :
    ((l.map (fun r => if r.shopify_order_id = some n then new else r)).filter
      (fun r => decide (r.shopify_order_id = some n))) =
    List.replicate
      ((l.filter (fun r => decide (r.shopify_order_id = some n))).length) new := by
  induction l with
  | nil => rfl
  | cons a l ih =>
    by_cases ha : a.shopify_order_id = some n
    · simp [List.filter_cons, ha, hnew, ih, List.replicate]
    · simp [List.filter_cons, ha, ih]

theorem filter_single_of_le_one {l : List OrderRow} {p : OrderRow → Bool}
    {x : OrderRow} (hmem : x ∈ l) (hx : p x = true)
    (hlen : (l.filter p).length ≤ 1) :
    l.filter p = [x] := by
  have hxf : x ∈ l.filter p := List.mem_filter.mpr ⟨hmem, hx⟩
  match hh : l.filter p with
  | [] => rw [hh] at hxf; exact absurd hxf (by simp)
  | [y] =>
    rw [hh] at hxf
    simp only [List.mem_singleton] at hxf
    subst hxf
    rfl
  | y :: z :: rest =>
    rw [hh] at hlen
    simp at hlen

theorem insertItems_ok_elim {sc sg : ℚ} {oid : ℕ} :
    ∀ (lis : List LineItem) (db db2 : DB),
      insertItems sc sg oid db lis = (db2, none) →
      ∃ rows, computeItems sc sg oid lis = .ok rows ∧
        db2.orders = db.orders ∧ db2.nextId = db.nextId ∧
        db2.order_items = db.order_items ++ rows := by
  intro lis
  induction lis with
  | nil =>
    intro db db2 h
    unfold insertItems at h
    obtain ⟨hdb, -⟩ := Prod.mk.injEq .. ▸ h
    refine ⟨[], rfl, ?_, ?_, ?_⟩ <;> simp [← hdb]
  | cons li rest ih =>
    intro db db2 h
    unfold insertItems at h
    rcases hci : computeItem sc sg oid li with e | row
    · rw [hci] at h
      obtain ⟨-, hres⟩ := Prod.mk.injEq .. ▸ h
      exact absurd hres (by simp)
    · rw [hci] at h
      obtain ⟨rows, hcr, ho, hn, hi⟩ := ih _ _ h
      refine ⟨row :: rows, ?_, ho, hn, ?_⟩
      · unfold computeItems
        rw [hci, hcr]
      · rw [hi]
        simp

theorem computeItems_order_id {sc sg : ℚ} {oid : ℕ} :
    ∀ (lis : List LineItem) (rows : List ItemRow),
      computeItems sc sg oid lis = .ok rows → ∀ r ∈ rows, r.order_id = oid := by
  intro lis
  induction lis with
  | nil =>
    intro rows h r hr
    unfold computeItems at h
    have : ([] : List ItemRow) = rows := Except.ok.inj h
    subst this
    exact absurd hr (by simp)
  | cons li rest ih =>
    intro rows h r hr
    unfold computeItems at h
    rcases hci : computeItem sc sg oid li with e | row
    · rw [hci] at h
      exact absurd h (by simp)
    · rw [hci] at h
      rcases hcr : computeItems sc sg oid rest with e2 | rows2
      · rw [hcr] at h
        exact absurd h (by simp)
      · rw [hcr] at h
        have hrows : row :: rows2 = rows := Except.ok.inj h
        subst hrows
        rcases List.mem_cons.mp hr with hr | hr
        · subst hr
          have := computeItem_ok_elim hci
          subst this
          rfl
        · exact ih rows2 hcr r hr

theorem shopify_order_ok_elim (db : DB) (o : OrderDoc)
    (hok : (shopify_order db o).2 = .ok "stored") :
    ∃ p rows,
      preprocessE o = .ok p ∧
      computeItems p.shipping_charge p.shipping_gst
        (upsertOrder db (mkOrderRow o p) o.id).2 o.line_items = .ok rows ∧
      (shopify_order db o).1.orders =
        (upsertOrder db (mkOrderRow o p) o.id).1.orders ∧
      (shopify_order db o).1.order_items =
        ((upsertOrder db (mkOrderRow o p) o.id).1.order_items.filter
          (fun i =>
            !(decide (i.order_id = (upsertOrder db (mkOrderRow o p) o.id).2)))) ++
          rows := by
  rcases hpre : preprocessE o with e | p
  · simp only [shopify_order, hpre] at hok
    exact absurd hok (by simp)
  · simp only [shopify_order, hpre] at hok ⊢
    rcases hins : insertItems p.shipping_charge p.shipping_gst
        (upsertOrder db (mkOrderRow o p) o.id).2
        (deleteItems (upsertOrder db (mkOrderRow o p) o.id).1
          (upsertOrder db (mkOrderRow o p) o.id).2) o.line_items with ⟨db3, res⟩
    rw [hins] at hok
    cases res with
    | some e =>
      exact Except.noConfusion hok
    | none =>
      obtain ⟨rows, hcr, ho, hn, hi⟩ := insertItems_ok_elim _ _ _ hins
      refine ⟨p, rows, rfl, hcr, ?_, ?_⟩
      · simpa [deleteItems] using ho
      · simpa [deleteItems] using hi

theorem upsertOrder_filter (db : DB) (mk : ℕ → OrderRow) (n : ℕ)
    (hmk : ∀ i, (mk i).shopify_order_id = some n)
    (hu : (db.orders.filter
      (fun r => decide (r.shopify_order_id = some n))).length ≤ 1) :
    ((upsertOrder db mk (some n)).1.orders.filter
      (fun r => decide (r.shopify_order_id = some n))) =
      [mk (upsertOrder db mk (some n)).2] := by
  unfold upsertOrder
  rcases hfind : db.orders.find?
      (fun r => decide (r.shopify_order_id = some n)) with _ | ex
  · have h1 : db.orders.filter (fun r => decide (r.shopify_order_id = some n)) = [] :=
      List.filter_eq_nil_iff.mpr (List.find?_eq_none.mp hfind)
    rw [hfind]
    simp [List.filter_append, h1, hmk db.nextId]
  · have hex_mem : ex ∈ db.orders := List.mem_of_find?_eq_some hfind
    have hex_p := List.find?_some hfind
    have hone : (db.orders.filter
        (fun r => decide (r.shopify_order_id = some n))).length = 1 := by
      have hpos : 0 < (db.orders.filter
          (fun r => decide (r.shopify_order_id = some n))).length :=
        List.length_pos_of_mem (List.mem_filter.mpr ⟨hex_mem, hex_p⟩)
      omega
    rw [hfind]
    show ((db.orders.map
        (fun r => if r.shopify_order_id = some n then mk ex.id else r)).filter
      (fun r => decide (r.shopify_order_id = some n))) = [mk ex.id]
    rw [filter_map_replace db.orders (mk ex.id) n (hmk ex.id), hone]
    rfl

theorem filter_not_filter (l : List ItemRow) (oid : ℕ) :
    ((l.filter (fun i => !(decide (i.order_id = oid)))).filter
      (fun i => decide (i.order_id = oid))) = [] := by
  induction l with
  | nil => rfl
  | cons a l ih =>
    by_cases ha : a.order_id = oid <;> simp [List.filter_cons, ha, ih]

/-- C3: delivering the inbound webhook twice with the same source order
id (even with different field values) leaves exactly one stored order
row for that external id, carrying the second delivery, and the item
rows keyed to it are exactly the ones computed from the second delivery
with nothing left over from the first. -/
theorem C3_upsert_replaces (db : DB) (o1 o2 : OrderDoc) (n : ℕ)
    (h1 : o1.id = some n) (h2 : o2.id = some n)
    (hu : (db.orders.filter
      (fun r => decide (r.shopify_order_id = some n))).length ≤ 1)
    (hok1 : (shopify_order db o1).2 = .ok "stored")
    (hok2 : (shopify_order (shopify_order db o1).1 o2).2 = .ok "stored") :
    ∃ p2 oid rows,
      preprocessE o2 = .ok p2 ∧
      computeItems p2.shipping_charge p2.shipping_gst oid o2.line_items =
        .ok rows ∧
      ((shopify_order (shopify_order db o1).1 o2).1.orders.filter
        (fun r => decide (r.shopify_order_id = some n))) =
        [mkOrderRow o2 p2 oid] ∧
      ((shopify_order (shopify_order db o1).1 o2).1.order_items.filter
        (fun i => decide (i.order_id = oid))) = rows := by
  obtain ⟨p1, rows1, hpre1, hcomp1, horders1, hitems1⟩ :=
    shopify_order_ok_elim db o1 hok1
  obtain ⟨p2, rows2, hpre2, hcomp2, horders2, hitems2⟩ :=
    shopify_order_ok_elim (shopify_order db o1).1 o2 hok2
  rw [h1] at horders1
  rw [h2] at horders2 hitems2 hcomp2
  have hmk1 : ∀ i, (mkOrderRow o1 p1 i).shopify_order_id = some n := fun i => h1
  have hmk2 : ∀ i, (mkOrderRow o2 p2 i).shopify_order_id = some n := fun i => h2
  have hup1 := upsertOrder_filter db (mkOrderRow o1 p1) n hmk1 hu
  have huA : ((shopify_order db o1).1.orders.filter
      (fun r => decide (r.shopify_order_id = some n))).length ≤ 1 := by
    rw [horders1, hup1]
    simp
  have hup2 := upsertOrder_filter (shopify_order db o1).1 (mkOrderRow o2 p2) n
    hmk2 huA
  refine ⟨p2,
    (upsertOrder (shopify_order db o1).1 (mkOrderRow o2 p2) (some n)).2,
    rows2, hpre2, hcomp2, ?_, ?_⟩
  · rw [horders2]
    exact hup2
  · rw [hitems2, List.filter_append, filter_not_filter,
      List.filter_eq_self.mpr
        (fun r hr => by simpa using computeItems_order_id _ _ hcomp2 r hr)]
    rfl

theorem C3_upsert_replaces_witness :
    ∃ p2 oid rows,
      preprocessE exOrder1b = .ok p2 ∧
      computeItems p2.shipping_charge p2.shipping_gst oid
        exOrder1b.line_items = .ok rows ∧
      ((shopify_order (shopify_order db0 exOrder1).1 exOrder1b).1.orders.filter
        (fun r => decide (r.shopify_order_id = some 1001))) =
        [mkOrderRow exOrder1b p2 oid] ∧
      ((shopify_order (shopify_order db0 exOrder1).1 exOrder1b).1.order_items.filter
        (fun i => decide (i.order_id = oid))) = rows :=
  C3_upsert_replaces db0 exOrder1 exOrder1b 1001 rfl rfl (by decide)
    (by decide) (by decide)
